import Mathlib

/-!
Verification development for the toast-migration script
(src/frontend/finalize_migration.py).  The script rewrites notification call
sites of the shape toast(brace ... brace) via the Python regex
toast backslash-s-star open-paren backslash-s-star open-brace ([^close-brace]+)
close-brace backslash-s-star close-paren with a replacement callback, then
strips the identifier toast from dependency lists with three fixed regex
substitutions.  Every regex used by the script is deterministic (each
quantified piece is followed by a character it can never match), so each one is
embedded below as a total scanner over List Char with exactly the source's
max-munch / lazy behaviour.
-/

/-- Python regex whitespace class: the six characters matched by backslash-s. -/
def pySpace (c : Char) : Bool :=
  c = ' ' || c = '\t' || c = '\n' || c = '\r' || c = '\x0b' || c = '\x0c'

/-- Consume a literal token from the front of the input, returning the rest. -/
def stripLit : List Char → List Char → Option (List Char)
  | [], s => some s
  | _ :: _, [] => none
  | c :: cs, d :: ds => if c = d then stripLit cs ds else none

/-- Consume the maximal run of Python whitespace (greedy backslash-s-star). -/
def dropPySpaces : List Char → List Char
  | [] => []
  | c :: cs => if pySpace c then dropPySpaces cs else c :: cs

/-- Split at the first closing brace: the maximal prefix free of closing
braces (the negated character class of the call pattern), and the rest. -/
def spanNonClose : List Char → List Char × List Char
  | [] => ([], [])
  | c :: cs =>
    if c = '\x7d' then ([], c :: cs)
    else
      let p := spanNonClose cs
      (c :: p.1, p.2)

/-- Split at the first backtick (the negated character class of the
template-literal pattern), and the rest. -/
def spanNonTick : List Char → List Char × List Char
  | [] => ([], [])
  | c :: cs =>
    if c = '\x60' then ([], c :: cs)
    else
      let p := spanNonTick cs
      (c :: p.1, p.2)

/-- The literal word toast. -/
def toastTok : List Char := "toast".toList

/-- The literal field prefix of the title extraction patterns. -/
def titleTok : List Char := "title:".toList

/-- The literal field prefix of the description extraction patterns. -/
def descTok : List Char := "description:".toList

/-- The literal field prefix of the variant pattern. -/
def variantTok : List Char := "variant:".toList

/-- The literal word destructive. -/
def destructiveTok : List Char := "destructive".toList

/-- Attempt, at the current position, a match of the call pattern of
replace_toast_multiline: the word toast, optional whitespace, an opening
parenthesis, optional whitespace, an opening brace, a nonempty run of
characters other than a closing brace (group 1), a closing brace, optional
whitespace, a closing parenthesis.  Returns the whole match, the captured
group and the remaining input. -/
def matchToastAt (s : List Char) : Option (List Char × List Char × List Char) := do
  let r1 ← stripLit toastTok s
  let r2 := dropPySpaces r1
  let r3 ← stripLit ['('] r2
  let r4 := dropPySpaces r3
  let r5 ← stripLit ['\x7b'] r4
  let p := spanNonClose r5
  if p.1.isEmpty then none
  else do
    let r6 ← stripLit ['\x7d'] p.2
    let r7 := dropPySpaces r6
    let r8 ← stripLit [')'] r7
    some (s.take (s.length - r8.length), p.1, r8)

/-- Lazy scan of the quoted-string value: the shortest sequence of units, each
either a character that is no quote and no backslash, or a backslash followed
by a non-newline character, ending at the closing quote q.  An unescaped
occurrence of either quote character is not a unit, so it aborts the scan. -/
def scanValue (q : Char) : List Char → Option (List Char)
  | [] => none
  | c :: cs =>
    if c = q then some []
    else if c = '"' || c = '\x27' then none
    else if c = '\\' then
      match cs with
      | [] => none
      | d :: ds =>
        if d = '\n' then none
        else
          match scanValue q ds with
          | some v => some (c :: d :: v)
          | none => none
    else
      match scanValue q cs with
      | some v => some (c :: v)
      | none => none

/-- Attempt, at the current position, the quoted field pattern: the field
token, optional whitespace, an opening quote, the lazily scanned value, the
matching closing quote.  Returns the quote character and the raw value. -/
def matchQuotedAt (field : List Char) (s : List Char) : Option (Char × List Char) := do
  let r1 ← stripLit field s
  let r2 := dropPySpaces r1
  match r2 with
  | [] => none
  | c :: cs =>
    if c = '"' || c = '\x27' then do
      let v ← scanValue c cs
      some (c, v)
    else none

/-- Attempt, at the current position, the template field pattern: the field
token, optional whitespace, a backtick, the greedy run of non-backtick
characters, a closing backtick.  Returns the raw interior. -/
def matchTemplateAt (field : List Char) (s : List Char) : Option (List Char) := do
  let r1 ← stripLit field s
  let r2 := dropPySpaces r1
  let r3 ← stripLit ['\x60'] r2
  let p := spanNonTick r3
  let _ ← stripLit ['\x60'] p.2
  some p.1

/-- Attempt, at the current position, the variant pattern: the variant token,
optional whitespace, a quote, the word destructive, a quote (the two quotes
are independent in the source pattern). -/
def matchVariantAt (s : List Char) : Option Unit := do
  let r1 ← stripLit variantTok s
  let r2 := dropPySpaces r1
  match r2 with
  | [] => none
  | c :: cs =>
    if c = '"' || c = '\x27' then do
      let r3 ← stripLit destructiveTok cs
      match r3 with
      | [] => none
      | d :: _ => if d = '"' || d = '\x27' then some () else none
    else none

/-- Leftmost search (re.search): try the pattern at each position, left to
right.  Every pattern used here consumes at least one character, so the empty
final position can be skipped. -/
def searchScan {α : Type} (p : List Char → Option α) : List Char → Option α
  | [] => none
  | c :: cs =>
    match p (c :: cs) with
    | some r => some r
    | none => searchScan p cs

/-- Wrap a value in its original quote character. -/
def quoteWrap (q : Char) (v : List Char) : List Char := q :: (v ++ [q])

/-- Wrap a value in backticks. -/
def tickWrap (v : List Char) : List Char := '\x60' :: (v ++ ['\x60'])

/-- The replacement callback of replace_toast_multiline, on the whole match
(group 0) and the captured inner text (group 1): extract title and description
in quoted and template form, detect the destructive variant, select the title
(template first, then quoted, then the description promoted), set a separate
description exactly when the source condition holds (a template description
with no template title, else a quoted description with no quoted title), and
build the showError / showSuccess / showToast replacement; with no extractable
field the whole match is returned unchanged. -/
def replace_callback (whole inner : List Char) : List Char :=
  let titleM := searchScan (matchQuotedAt titleTok) inner
  let titleTM := searchScan (matchTemplateAt titleTok) inner
  let descM := searchScan (matchQuotedAt descTok) inner
  let descTM := searchScan (matchTemplateAt descTok) inner
  let isError := (searchScan matchVariantAt inner).isSome
  let titleOpt : Option (List Char) :=
    match titleTM, titleM with
    | some v, _ => some (tickWrap v)
    | none, some qv => some (quoteWrap qv.1 qv.2)
    | none, none =>
      match descTM, descM with
      | some v, _ => some (tickWrap v)
      | none, some qv => some (quoteWrap qv.1 qv.2)
      | none, none => none
  match titleOpt with
  | none => whole
  | some title =>
    let description : Option (List Char) :=
      if descTM.isSome && titleTM.isNone then
        Option.map tickWrap descTM
      else if descM.isSome && titleM.isNone then
        Option.map (fun qv => quoteWrap qv.1 qv.2) descM
      else none
    match isError, description with
    | true, some d => "showError(".toList ++ title ++ ", ".toList ++ d ++ [')']
    | true, none => "showError(".toList ++ title ++ [')']
    | false, some d => "showSuccess(".toList ++ title ++ ", ".toList ++ d ++ [')']
    | false, none => "showToast(".toList ++ title ++ ", \"success\")".toList

/-- Substitution driver (re.sub with a callback): scan left to right; on a
match emit the callback's result and continue after the match, otherwise keep
one character and move on.  Fuel of one unit per input character suffices since
every match consumes at least one character. -/
def subScan (matchAt : List Char → Option (List Char × List Char × List Char))
    (f : List Char → List Char → List Char) : Nat → List Char → List Char
  | 0, s => s
  | _ + 1, [] => []
  | n + 1, c :: cs =>
    match matchAt (c :: cs) with
    | some r => f r.1 r.2.1 ++ subScan matchAt f n r.2.2
    | none => c :: subScan matchAt f n cs

/-- replace_toast_multiline from the source: substitute every match of the
call pattern by the callback's result. -/
def replace_toast_multiline (content : String) : String :=
  ⟨subScan matchToastAt replace_callback content.toList.length content.toList⟩

/-- Substitution driver for the fixed-replacement dependency-list patterns. -/
def subFixed (matchAt : List Char → Option (List Char)) (repl : List Char) :
    Nat → List Char → List Char
  | 0, s => s
  | _ + 1, [] => []
  | n + 1, c :: cs =>
    match matchAt (c :: cs) with
    | some rest => repl ++ subFixed matchAt repl n rest
    | none => c :: subFixed matchAt repl n cs

/-- Attempt of the pattern: comma, whitespace, toast, whitespace, closing
bracket (the first dependency substitution). -/
def matchDepLastAt (s : List Char) : Option (List Char) := do
  let r1 ← stripLit [','] s
  let r2 := dropPySpaces r1
  let r3 ← stripLit toastTok r2
  let r4 := dropPySpaces r3
  stripLit [']'] r4

/-- Attempt of the pattern: opening bracket, whitespace, toast, whitespace,
comma (the second dependency substitution). -/
def matchDepFirstAt (s : List Char) : Option (List Char) := do
  let r1 ← stripLit ['['] s
  let r2 := dropPySpaces r1
  let r3 ← stripLit toastTok r2
  let r4 := dropPySpaces r3
  stripLit [','] r4

/-- Attempt of the pattern: opening bracket, whitespace, toast, whitespace,
closing bracket (the third dependency substitution). -/
def matchDepSoleAt (s : List Char) : Option (List Char) := do
  let r1 ← stripLit ['['] s
  let r2 := dropPySpaces r1
  let r3 ← stripLit toastTok r2
  let r4 := dropPySpaces r3
  stripLit [']'] r4

/-- The three dependency-cleaning substitutions of process_file, applied in
source order with their fixed replacements. -/
def clean_toast_deps (s : List Char) : List Char :=
  let s1 := subFixed matchDepLastAt [']'] s.length s
  let s2 := subFixed matchDepFirstAt ['['] s1.length s1
  subFixed matchDepSoleAt "[]".toList s2.length s2

/-- String-level wrapper of the dependency-cleaning step. -/
def clean_deps (content : String) : String := ⟨clean_toast_deps content.toList⟩

/-- The full per-file text transform of process_file: call rewriting followed
by dependency-list cleaning. -/
def transform (content : String) : String := clean_deps (replace_toast_multiline content)

/-- Attempt of the counting pattern of process_file: toast, whitespace,
opening parenthesis, whitespace, opening brace. -/
def matchToastOpenAt (s : List Char) : Option (List Char) := do
  let r1 ← stripLit toastTok s
  let r2 := dropPySpaces r1
  let r3 ← stripLit ['('] r2
  let r4 := dropPySpaces r3
  stripLit ['\x7b'] r4

/-- Count the non-overlapping matches of a pattern (length of re.findall). -/
def countScan (matchAt : List Char → Option (List Char)) : Nat → List Char → Nat
  | 0, _ => 0
  | _ + 1, [] => 0
  | n + 1, c :: cs =>
    match matchAt (c :: cs) with
    | some rest => countScan matchAt n rest + 1
    | none => countScan matchAt n cs

/-- The residual-call count of process_file on a given content. -/
def count_toast_open (content : String) : Nat :=
  countScan matchToastOpenAt content.toList.length content.toList

/-- Attempt of the snippet pattern of process_file: toast, whitespace, opening
parenthesis, whitespace, opening brace, a possibly empty run of characters
other than a closing brace, a closing brace.  Returns the whole match and the
rest. -/
def matchResidualAt (s : List Char) : Option (List Char × List Char) := do
  let r1 ← stripLit toastTok s
  let r2 := dropPySpaces r1
  let r3 ← stripLit ['('] r2
  let r4 := dropPySpaces r3
  let r5 ← stripLit ['\x7b'] r4
  let p := spanNonClose r5
  let r6 ← stripLit ['\x7d'] p.2
  some (s.take (s.length - r6.length), r6)

/-- Collect the non-overlapping matches of a pattern (re.finditer). -/
def findAllScan (matchAt : List Char → Option (List Char × List Char)) :
    Nat → List Char → List (List Char)
  | 0, _ => []
  | _ + 1, [] => []
  | n + 1, c :: cs =>
    match matchAt (c :: cs) with
    | some p => p.1 :: findAllScan matchAt n p.2
    | none => findAllScan matchAt n cs

/-- The residual-call headline warning of process_file. -/
def residualMsg (n : Nat) : String :=
  "⚠️  Il reste " ++ toString n ++ " appel(s) toast(\x7b - vérification recommandée"

/-- The example-snippet warnings of process_file: the first three residual
matches, each truncated to sixty characters. -/
def snippetWarnings (content : List Char) : List String :=
  ((findAllScan matchResidualAt content.length content).take 3).enum.map
    (fun p => "   Exemple " ++ toString (p.1 + 1) ++ ": " ++ String.mk (p.2.take 60) ++ "...")

/-- The pure core of process_file once the file's content has been read:
count the open-call pattern, rewrite the calls, clean the dependency lists,
count again, record the residual warnings, and return the changed flag, the
warning list and the toasts_replaced statistic (before minus after); an
unchanged file returns changed false with the fixed no-change message. -/
def processContent (content : String) : Bool × List String × Int :=
  let cl := content.toList
  let before := countScan matchToastOpenAt cl.length cl
  let c1 := subScan matchToastAt replace_callback cl.length cl
  let c2 := clean_toast_deps c1
  let after := countScan matchToastOpenAt c2.length c2
  let replaced : Int := (before : Int) - (after : Int)
  let warnings : List String :=
    if after > 0 then residualMsg after :: snippetWarnings c2 else []
  if c2 = cl then (false, ["Aucun changement nécessaire"], replaced)
  else (true, warnings, replaced)

/-- The outcome of the existence check and read of one file: the path does not
exist, the read raises an exception with a message, or it yields the content. -/
inductive ReadOutcome
  | missing
  | raises (msg : String)
  | contents (text : String)

/-- The file-system behaviour seen by process_file for one file: the read
outcome and, when a write is attempted, the exception it raises if any. -/
structure FileEnv where
  read : ReadOutcome
  write : Option String

/-- The DRY_RUN configuration constant of the script. -/
def DRY_RUN : Bool := false

/-- The BACKUP configuration constant of the script. -/
def BACKUP : Bool := true

/-- process_file with its file-system interactions modelled by a FileEnv: a
missing path returns the not-found warning, an exception during the read is
caught and returned as an error warning, an exception during the backup or
write of a changed file is caught the same way (the statistics are already
computed at that point, as in the source), and otherwise the pure result is
returned. -/
def process_file (name : String) (env : FileEnv) : Bool × List String × Int :=
  match env.read with
  | ReadOutcome.missing => (false, ["Fichier non trouvé: " ++ name], 0)
  | ReadOutcome.raises e => (false, ["❌ Erreur: " ++ e], 0)
  | ReadOutcome.contents content =>
    let r := processContent content
    if r.1 then
      if DRY_RUN then r
      else
        match env.write with
        | some e => (false, ["❌ Erreur: " ++ e], r.2.2)
        | none => r
    else r

/-- The per-file loop of main: every listed file is processed in order and the
loop never stops early. -/
def runBatch (files : List (String × FileEnv)) : List (Bool × List String × Int) :=
  files.map (fun p => process_file p.1 p.2)

/-- A list of characters that is a sequence of units of the quoted-value
regex: each unit is a character that is no quote and no backslash, or a
backslash followed by a non-newline character. -/
def isUnits : List Char → Bool
  | [] => true
  | c :: cs =>
    if c = '"' || c = '\x27' then false
    else if c = '\\' then
      match cs with
      | [] => false
      | d :: ds => if d = '\n' then false else isUnits ds
    else isUnits cs

/-- The quote character other than the given one. -/
def otherQuote (q : Char) : Char := if q = '"' then '\x27' else '"'

/-- C1: the call-site matcher does not delimit a call containing a nested
brace as one balanced span: on the specification's own example the call
pattern finds no match at all (its capture group cannot cross the inner
closing brace), the call is left unchanged and it still counts as one
unreplaced call of the old shape. -/
theorem c1_nested_brace_call_left_unmatched :
    replace_toast_multiline "toast(\x7b title: \"X\", meta: \x7b a: 1 \x7d \x7d)" =
      "toast(\x7b title: \"X\", meta: \x7b a: 1 \x7d \x7d)" ∧
    count_toast_open "toast(\x7b title: \"X\", meta: \x7b a: 1 \x7d \x7d)" = 1 := by
  exact ⟨rfl, rfl⟩

/-- C2: a matched call carrying only a description is not rewritten to a
single-argument promotion; the code emits a two-argument showSuccess call
holding the description's value twice. -/
theorem c2_description_only_duplicated :
    replace_toast_multiline "toast(\x7b description: \"Saved\" \x7d)" =
      "showSuccess(\"Saved\", \"Saved\")" := by
  rfl

/-- C3: a destructive call carrying both a title and a description in quoted
form loses the description; the code emits the one-argument showError call
instead of a two-argument one. -/
theorem c3_both_fields_drops_description :
    replace_toast_multiline
        "toast(\x7b title: \"Oops\", description: \"Bad\", variant: \"destructive\" \x7d)" =
      "showError(\"Oops\")" := by
  rfl

/-- C4: a call whose title is a template literal with an interpolation is not
matched at all (the interpolation's closing brace stops the capture group),
so it is left unchanged and still counts as one call of the old shape. -/
theorem c4_template_interpolation_left_unmatched :
    replace_toast_multiline "toast(\x7b title: \x60Hello $\x7bname\x7d\x60 \x7d)" =
      "toast(\x7b title: \x60Hello $\x7bname\x7d\x60 \x7d)" ∧
    count_toast_open "toast(\x7b title: \x60Hello $\x7bname\x7d\x60 \x7d)" = 1 := by
  exact ⟨rfl, rfl⟩

/-- C5: the per-file transform is not idempotent: a first pass over the input
below yields a text that a second pass changes again, and the second pass
reports changed = true, not false. -/
theorem c5_transform_not_idempotent :
    transform "[toast, toast, x]" = "[ toast, x]" ∧
    transform (transform "[toast, toast, x]") = "[ x]" ∧
    transform (transform "[toast, toast, x]") ≠ transform "[toast, toast, x]" ∧
    (processContent (transform "[toast, toast, x]")).1 = true := by
  refine ⟨rfl, rfl, ?_, rfl⟩
  decide

/-- C6 counterexample: the dependency cleaner leaves a middle occurrence of
toast in place, and rewrites the first-element case to a list with a leftover
space rather than to the claimed text. -/
theorem c6_cleaner_counterexample :
    clean_deps "[a, toast, b]" = "[a, toast, b]" ∧ clean_deps "[toast, x]" ≠ "[x]" := by
  refine ⟨rfl, ?_⟩
  decide

/-- C6 amended: the cleaner removes toast when it is the sole element, the
last element, or the first element of a longer list, the first-element case
keeping the whitespace that followed the removed comma; a middle occurrence
among other elements is left in place. -/
theorem c6_cleaner_amended :
    clean_deps "[toast]" = "[]" ∧ clean_deps "[x, toast]" = "[x]" ∧
    clean_deps "[toast, x]" = "[ x]" ∧ clean_deps "[a, toast, b]" = "[a, toast, b]" := by
  exact ⟨rfl, rfl, rfl, rfl⟩

/-- C7: for every matched call body with no extractable description in either
form and no destructive variant, when a title is extracted the replacement is
the showToast call whose first argument mirrors the title's literal form
exactly — backticks around the raw interior for a template title, the original
quote character around the raw value for a quoted title — and whose second
argument is the literal string success. -/
theorem c7_title_only_mirrors_quoting (whole inner : List Char)
    (hdq : searchScan (matchQuotedAt descTok) inner = none)
    (hdt : searchScan (matchTemplateAt descTok) inner = none)
    (hv : searchScan matchVariantAt inner = none) :
    (∀ v, searchScan (matchTemplateAt titleTok) inner = some v →
      replace_callback whole inner =
        "showToast(".toList ++ tickWrap v ++ ", \"success\")".toList) ∧
    (∀ q v, searchScan (matchTemplateAt titleTok) inner = none →
      searchScan (matchQuotedAt titleTok) inner = some (q, v) →
      replace_callback whole inner =
        "showToast(".toList ++ quoteWrap q v ++ ", \"success\")".toList) := by
  constructor
  · intro v hvt
    simp [replace_callback, hdq, hdt, hv, hvt]
  · intro q v ht hq
    simp [replace_callback, hdq, hdt, hv, ht, hq]

/-- C7 witness: the body holding only a double-quoted title Done is rewritten
to the showToast call with the same double quotes and the success argument. -/
theorem c7_witness :
    replace_callback [] (" title: \"Done\" ".toList) =
      "showToast(".toList ++ quoteWrap '"' ("Done".toList) ++ ", \"success\")".toList :=
  (c7_title_only_mirrors_quoting [] (" title: \"Done\" ".toList) rfl rfl rfl).2 '"'
    ("Done".toList) rfl rfl

/-- C8 counterexample: a file whose only content is a call with neither title
nor description is left unchanged, so the result carries only the fixed
no-change message and the residual-call warning is not recorded, although one
call of the old shape remains. -/
theorem c8_no_warning_when_unchanged :
    processContent "toast(\x7b variant: \"destructive\" \x7d)" =
      (false, ["Aucun changement nécessaire"], 0) ∧
    residualMsg 1 ∉ (processContent "toast(\x7b variant: \"destructive\" \x7d)").2.1 := by
  refine ⟨rfl, ?_⟩
  decide

/-- C8 amended: a call from which neither a title nor a description can be
extracted is left byte-for-byte unchanged by the replacement callback, and the
residual-call warning reaches the file's result when the file changes for some
other reason, as on the concrete file below; when nothing else changes the
result holds only the fixed no-change message. -/
theorem c8_amended_warning_only_with_other_change
    (whole inner : List Char)
    (htq : searchScan (matchQuotedAt titleTok) inner = none)
    (htt : searchScan (matchTemplateAt titleTok) inner = none)
    (hdq : searchScan (matchQuotedAt descTok) inner = none)
    (hdt : searchScan (matchTemplateAt descTok) inner = none) :
    replace_callback whole inner = whole ∧
    (processContent "toast(\x7b variant: \"destructive\" \x7d)\n[toast]").1 = true ∧
    residualMsg 1 ∈ (processContent "toast(\x7b variant: \"destructive\" \x7d)\n[toast]").2.1 := by
  refine ⟨?_, rfl, ?_⟩
  · simp [replace_callback, htq, htt, hdq, hdt]
  · decide

/-- C8 witness: the ambiguous destructive-variant call is returned unchanged
by the replacement callback. -/
theorem c8_amended_witness :
    replace_callback ("toast(\x7b variant: \"destructive\" \x7d)".toList)
        (" variant: \"destructive\" ".toList) =
      "toast(\x7b variant: \"destructive\" \x7d)".toList :=
  (c8_amended_warning_only_with_other_change
    ("toast(\x7b variant: \"destructive\" \x7d)".toList)
    (" variant: \"destructive\" ".toList) rfl rfl rfl rfl).1

/-- C9: per-file failures are absorbed and never propagate: a missing path
yields changed false with a warning naming the file, an exception during the
read yields changed false with the error warning, an exception during the
backup or write of a changed file is caught the same way with the statistics
already computed, and the batch loop processes every listed file. -/
theorem c9_per_file_errors_caught (name : String) (env : FileEnv) :
    (env.read = ReadOutcome.missing →
      process_file name env = (false, ["Fichier non trouvé: " ++ name], 0)) ∧
    (∀ e, env.read = ReadOutcome.raises e →
      process_file name env = (false, ["❌ Erreur: " ++ e], 0)) ∧
    (∀ e c, env.read = ReadOutcome.contents c → env.write = some e →
      (processContent c).1 = true →
      process_file name env = (false, ["❌ Erreur: " ++ e], (processContent c).2.2)) ∧
    (∀ files : List (String × FileEnv), (runBatch files).length = files.length) := by
  refine ⟨?_, ?_, ?_, ?_⟩
  · intro h
    simp [process_file, h]
  · intro e h
    simp [process_file, h]
  · intro e c hr hw hc
    simp [process_file, hr, hw, hc, DRY_RUN]
  · intro files
    simp [runBatch]

/-- C9 witness: a missing file is reported as not found with changed false. -/
theorem c9_witness :
    process_file "pages/Tasks.tsx" ⟨ReadOutcome.missing, none⟩ =
      (false, ["Fichier non trouvé: " ++ "pages/Tasks.tsx"], 0) :=
  (c9_per_file_errors_caught "pages/Tasks.tsx" ⟨ReadOutcome.missing, none⟩).1 rfl

/-- After any prefix that is a sequence of well-formed units, an unescaped
occurrence of a quote character other than the closing one makes the lazy
value scan fail: the offending character is neither the closing quote nor the
start of a unit. -/
theorem scanValue_units_other :
    ∀ (q x : Char), ((q = '"') ∨ (q = '\x27')) → (x = q) = False →
      ((x = '"') ∨ (x = '\x27')) →
      ∀ u, isUnits u = true → ∀ w, scanValue q (u ++ x :: w) = none := by
  intro q x hq hxq hx u
  have hbq : ('\\' = q) = False := by
    rcases hq with h | h <;> subst h <;> simp
  induction u using isUnits.induct with
  | case1 =>
    intro _ w
    rw [List.nil_append, scanValue.eq_def]
    rcases hx with h | h <;> subst h <;> simp [hxq]
  | case2 c cs h =>
    intro hu
    rw [isUnits.eq_def] at hu
    simp [h] at hu
  | case3 h =>
    intro hu
    rw [isUnits.eq_def] at hu
    simp [h] at hu
  | case4 cs h =>
    intro hu
    rw [isUnits.eq_def] at hu
    simp [h] at hu
  | case5 c cs hn h ih =>
    intro hu w
    rw [isUnits.eq_def] at hu
    simp only [h, if_false, if_neg hn, Bool.not_eq_true] at hu
    simp only [List.cons_append]
    rw [scanValue.eq_def]
    simp only [hbq, h, if_false, if_neg hn, ih hu w]
    simp
  | case6 c cs h hb ih =>
    intro hu w
    rw [isUnits.eq_def] at hu
    simp only [h, if_false, if_neg hb] at hu
    simp only [List.cons_append]
    rw [scanValue.eq_def]
    have hc2 : ¬c = '"' ∧ ¬c = '\x27' := by
      constructor <;> intro hh <;> subst hh <;> simp at h
    have hcq : (c = q) = False := by
      rcases hq with h2 | h2 <;> subst h2 <;>
        simp [hc2.1, hc2.2]
    simp only [hcq, h, if_false, if_neg hb, ih hu w]
    simp

/-- C10: a quoted field value containing the other quote character unescaped
defeats extraction — after any prefix of well-formed units the unescaped other
quote aborts the lazy value scan — and on the concrete call whose title is
such a value, with no other field present, the call is left byte-for-byte
unchanged by the whole rewrite. -/
theorem c10_other_quote_blocks_extraction (q : Char) (u w : List Char)
    (hq : (q = '"') ∨ (q = '\x27')) (hu : isUnits u = true) :
    scanValue q (u ++ otherQuote q :: w) = none ∧
    replace_toast_multiline "toast(\x7b title: \"It\x27s done\" \x7d)" =
      "toast(\x7b title: \"It\x27s done\" \x7d)" := by
  constructor
  · have hxq : (otherQuote q = q) = False := by
      rcases hq with h | h <;> subst h <;> simp [otherQuote]
    have hx : ((otherQuote q = '"') ∨ (otherQuote q = '\x27')) := by
      rcases hq with h | h <;> subst h <;> simp [otherQuote]
    exact scanValue_units_other q (otherQuote q) hq hxq hx u hu w
  · rfl

/-- C10 witness: scanning a double-quoted value stops at the unescaped single
quote of It-apostrophe-s. -/
theorem c10_witness :
    scanValue '"' ("It".toList ++ otherQuote '"' :: "s done".toList) = none :=
  (c10_other_quote_blocks_extraction '"' ("It".toList) ("s done".toList)
    (Or.inl rfl) rfl).1
